import Mathlib

/-!
Verification of the badge-generation program (generate_qr_badges_final.py).

The program reads attendee records from a CSV file and renders badge cells
for four badge variants (QR, Student, Guest 1, Guest 2) into documents.
This file gives a shallow embedding of the data model and of the pure parts
of the pipeline: field access with default values, Python integer parsing
(safe_int), the stable sort on the (last, preferred) key, the guest-count
filters, the per-cell line rendering, the pagination arithmetic of the main
rendering loop, record loading with its failure modes, and the main
dispatch. Network fetches are modelled by an oracle function, and GUI or
file-system side effects are abstracted away; sys.exit with a failure
status is modelled by an error value of an Except type.
-/

namespace Badges

/-- A record is a row of the CSV: an association list from column names to
string values (pandas loads every cell as a string, with NaN filled by the
empty string). -/
abbrev Record := List (String × String)

/-- Field lookup with an explicit default, mirroring the Python idiom
rec.get(key, default). -/
def Record.getD (r : Record) (k d : String) : String :=
  match r.find? (fun p => p.1 == k) with
  | some p => p.2
  | none => d

/-- Field lookup defaulting to the empty string, mirroring rec.get(key, ''). -/
def Record.get (r : Record) (k : String) : String :=
  r.getD k ""

/-- ASCII lower-casing of a string, modelling str.lower() as used on the
sort keys and on the file suffix. -/
def pyLower (s : String) : String :=
  String.mk (s.data.map Char.toLower)

/-- Python str.strip() with no argument: remove leading and trailing
whitespace. -/
def pyStrip (s : String) : String :=
  String.mk
    (((s.data.dropWhile Char.isWhitespace).reverse.dropWhile Char.isWhitespace).reverse)

/-- Digit tail of a Python integer literal: digits possibly separated by
single underscores, each underscore strictly between digits. -/
def pyDigitsCore : List Char → Nat → Option Nat
  | [], acc => some acc
  | ['_'], _ => none
  | '_' :: c :: rest, acc =>
      if c.isDigit then pyDigitsCore rest (acc * 10 + (c.toNat - 48)) else none
  | c :: rest, acc =>
      if c.isDigit then pyDigitsCore rest (acc * 10 + (c.toNat - 48)) else none

/-- Unsigned decimal parse: at least one digit, then pyDigitsCore. -/
def pyParseNat : List Char → Option Nat
  | [] => none
  | c :: rest => if c.isDigit then pyDigitsCore rest (c.toNat - 48) else none

/-- Model of the Python built-in int(s) on strings: surrounding whitespace
is ignored, an optional sign precedes the digits, and anything else raises
ValueError (here: none). -/
def pyParseInt (s : String) : Option Int :=
  match (pyStrip s).data with
  | '+' :: rest => (pyParseNat rest).map (fun n => (n : Int))
  | '-' :: rest => (pyParseNat rest).map (fun n => -(n : Int))
  | cs => (pyParseNat cs).map (fun n => (n : Int))

/-- safe_int from the source: try int(val_str), default to 0 if empty or
non-numeric. -/
def safe_int (s : String) : Int :=
  (pyParseInt s).getD 0

/-- The sort key used by every badge variant:
(last_name.lower(), preferred_name.lower()). -/
def sortKey (r : Record) : String × String :=
  (pyLower (r.get "Last"), pyLower (r.get "Preferred"))

/-- Python string comparison: strict lexicographic order on the character
sequences (code points). -/
def strLtB : List Char → List Char → Bool
  | [], [] => false
  | [], _ :: _ => true
  | _ :: _, [] => false
  | a :: as, b :: bs => if a = b then strLtB as bs else decide (a < b)

def pyLt (a b : String) : Bool :=
  strLtB a.data b.data

/-- Python string le: the negation of the reversed strict comparison, which
for this total order coincides with less-or-equal. -/
def pyLe (a b : String) : Bool :=
  ! pyLt b a

theorem strLtB_irrefl : ∀ l, strLtB l l = false := by
  intro l
  induction l with
  | nil => rfl
  | cons a as ih => simp [strLtB, ih]

theorem strLtB_asymm : ∀ l1 l2, strLtB l1 l2 = true → strLtB l2 l1 = false := by
  intro l1
  induction l1 with
  | nil =>
    intro l2 _
    cases l2 <;> rfl
  | cons a as ih =>
    intro l2
    cases l2 with
    | nil => simp [strLtB]
    | cons b bs =>
      simp only [strLtB]
      by_cases hab : a = b
      · subst hab
        simp only [if_pos rfl]
        exact ih bs
      · rw [if_neg hab, if_neg (fun h => hab h.symm)]
        simp only [decide_eq_true_eq, decide_eq_false_iff_not]
        intro h
        exact lt_asymm h

theorem strLtB_trans : ∀ l1 l2 l3,
    strLtB l1 l2 = true → strLtB l2 l3 = true → strLtB l1 l3 = true := by
  intro l1
  induction l1 with
  | nil =>
    intro l2 l3 h1 h2
    cases l2 with
    | nil => exact h2
    | cons b bs =>
      cases l3 with
      | nil => simp [strLtB] at h2
      | cons c cs => rfl
  | cons a as ih =>
    intro l2 l3 h1 h2
    cases l2 with
    | nil => simp [strLtB] at h1
    | cons b bs =>
      cases l3 with
      | nil => simp [strLtB] at h2
      | cons c cs =>
        simp only [strLtB] at h1 h2 ⊢
        by_cases hab : a = b <;> by_cases hbc : b = c
        · subst hab; subst hbc
          rw [if_pos rfl] at h1 h2 ⊢
          exact ih bs cs h1 h2
        · subst hab
          rw [if_neg hbc] at h2 ⊢
          exact h2
        · subst hbc
          rw [if_neg hab] at h1 ⊢
          exact h1
        · rw [if_neg hab] at h1
          rw [if_neg hbc] at h2
          simp only [decide_eq_true_eq] at h1 h2
          have hac : a < c := lt_trans h1 h2
          have hne : ¬ (a = c) := fun h => absurd (h ▸ h1) (lt_asymm h2)
          rw [if_neg hne]
          simpa using hac

theorem strLtB_total_eq : ∀ l1 l2,
    strLtB l1 l2 = false → strLtB l2 l1 = false → l1 = l2 := by
  intro l1
  induction l1 with
  | nil =>
    intro l2 h1 _
    cases l2 with
    | nil => rfl
    | cons b bs => simp [strLtB] at h1
  | cons a as ih =>
    intro l2 h1 h2
    cases l2 with
    | nil => simp [strLtB] at h2
    | cons b bs =>
      simp only [strLtB] at h1 h2
      by_cases hab : a = b
      · subst hab
        rw [if_pos rfl] at h1 h2
        rw [ih bs h1 h2]
      · rw [if_neg hab] at h1
        rw [if_neg (fun h => hab h.symm)] at h2
        simp only [decide_eq_false_iff_not] at h1 h2
        exact absurd (le_antisymm (le_of_not_lt h2) (le_of_not_lt h1)) hab

theorem string_eq_of_data_eq {a b : String} (h : a.data = b.data) : a = b := by
  cases a; cases b; exact congrArg String.mk h

/-- Python tuple comparison on the two-string sort key: lexicographic,
first components compared first. -/
def keyLe (a b : String × String) : Prop :=
  pyLt a.1 b.1 = true ∨ (a.1 = b.1 ∧ pyLe a.2 b.2 = true)

instance : DecidableRel keyLe := fun a b => by
  unfold keyLe; infer_instance

/-- Record comparison induced by the sort key. -/
def recLe (a b : Record) : Prop :=
  keyLe (sortKey a) (sortKey b)

instance : DecidableRel recLe := fun a b => by
  unfold recLe; infer_instance

theorem keyLe_refl (a : String × String) : keyLe a a :=
  Or.inr ⟨rfl, by simp [pyLe, pyLt, strLtB_irrefl]⟩

theorem keyLe_total (a b : String × String) : keyLe a b ∨ keyLe b a := by
  rcases h1 : strLtB a.1.data b.1.data with _ | _
  · rcases h2 : strLtB b.1.data a.1.data with _ | _
    · have e : a.1 = b.1 := string_eq_of_data_eq (strLtB_total_eq _ _ h1 h2)
      rcases h3 : strLtB b.2.data a.2.data with _ | _
      · exact Or.inl (Or.inr ⟨e, by simp [pyLe, pyLt, h3]⟩)
      · have h4 : strLtB a.2.data b.2.data = false := strLtB_asymm _ _ h3
        exact Or.inr (Or.inr ⟨e.symm, by simp [pyLe, pyLt, h4]⟩)
    · exact Or.inr (Or.inl (by simpa [pyLt] using h2))
  · exact Or.inl (Or.inl (by simpa [pyLt] using h1))

theorem keyLe_trans {a b c : String × String} (hab : keyLe a b) (hbc : keyLe b c) :
    keyLe a c := by
  rcases hab with h1 | ⟨e1, l1⟩
  · rcases hbc with h2 | ⟨e2, _⟩
    · exact Or.inl (strLtB_trans _ _ _ h1 h2)
    · exact Or.inl (e2 ▸ h1)
  · rcases hbc with h2 | ⟨e2, l2⟩
    · exact Or.inl (e1 ▸ h2)
    · refine Or.inr ⟨e1.trans e2, ?_⟩
      simp only [pyLe, pyLt, Bool.not_eq_eq_eq_not, Bool.not_true] at l1 l2 ⊢
      rcases h3 : strLtB c.2.data a.2.data with _ | _
      · rfl
      · rcases h4 : strLtB a.2.data b.2.data with _ | _
        · rcases h5 : strLtB b.2.data c.2.data with _ | _
          · have eac : a.2.data = b.2.data := strLtB_total_eq _ _ h4 l1
            have ebc : b.2.data = c.2.data := strLtB_total_eq _ _ h5 l2
            rw [← ebc, ← eac, strLtB_irrefl] at h3
            simp at h3
          · have hba := strLtB_trans _ _ _ h5 h3
            rw [hba] at l1
            exact l1
        · have hcb := strLtB_trans _ _ _ h3 h4
          rw [hcb] at l2
          exact l2

theorem keyLe_antisymm {a b : String × String} (hab : keyLe a b) (hba : keyLe b a) :
    a = b := by
  rcases hab with h1 | ⟨e1, l1⟩
  · rcases hba with h2 | ⟨e2, _⟩
    · have hf : strLtB b.1.data a.1.data = false := strLtB_asymm _ _ h1
      simp only [pyLt] at h2
      rw [hf] at h2
      exact absurd h2 (by simp)
    · rw [e2] at h1
      simp [pyLt, strLtB_irrefl] at h1
  · rcases hba with h2 | ⟨e2, l2⟩
    · rw [e1] at h2
      simp [pyLt, strLtB_irrefl] at h2
    · simp only [pyLe, pyLt, Bool.not_eq_eq_eq_not, Bool.not_true] at l1 l2
      exact Prod.ext e1 (string_eq_of_data_eq (strLtB_total_eq _ _ l2 l1))

instance : IsTotal Record recLe :=
  ⟨fun a b => keyLe_total (sortKey a) (sortKey b)⟩

instance : IsTrans Record recLe :=
  ⟨fun _ _ _ hab hbc => keyLe_trans hab hbc⟩

/-- The in-place records.sort(key=...) of the source: a stable sort by the
(last, preferred) key, modelled with insertion sort, which is stable. -/
def sortRecords (l : List Record) : List Record :=
  List.insertionSort recLe l

/-- One paragraph written into a badge cell; the constructor records which
source line produced it and the exact text handed to the document library. -/
inductive BadgeLine where
  | blank
  | nameL (text : String)
  | shirtL (text : String)
  | majorL (text : String)
  | cityStateL (text : String)
  | groupPronounsL (text : String)
  | sessionL (text : String)
  | guestOfL (text : String)
  | affiliationL (text : String)
  | qrImageL (path : String)
  | qrErrorL (text : String)
deriving DecidableEq, Repr

/-- The name line text of a QR badge cell. The source reads the count from
the key FASET Total Count (not FASET Total Guest Count), trims it, shows 1
when the result is blank, and appends it after a dash. -/
def qr_name_text (rec : Record) : String :=
  let count_val := pyStrip (rec.get "FASET Total Count")
  let count_display := if count_val = "" then "1" else count_val
  pyStrip (pyStrip (rec.get "Preferred") ++ " " ++ pyStrip (rec.get "Last")
    ++ " - " ++ count_display)

/-- The cell of one record on the QR badge sheet. The fetch oracle stands
for download_qr_image: some path on success, none on any failure (timeout,
non-2xx status, network error, or the requests library being absent). -/
def qr_cell (fetch : Nat → Option String) (idx : Nat) (rec : Record) : List BadgeLine :=
  [BadgeLine.nameL (qr_name_text rec)]
  ++ (let shirt := pyStrip (rec.get "FASET Shirt Size")
      if shirt ≠ "" then [BadgeLine.shirtL ("Shirt Size: " ++ shirt)] else [])
  ++ (let qr_url := pyStrip (rec.get "Code")
      if qr_url ≠ "" then
        match fetch idx with
        | some p => [BadgeLine.qrImageL p]
        | none => [BadgeLine.qrErrorL "QR download error"]
      else [])

/-- Python sep.join(filter(None, parts)): drop empty strings, then join. -/
def pyJoinFiltered (sep : String) (parts : List String) : String :=
  String.intercalate sep (parts.filter (fun s => s ≠ ""))

/-- Python s.strip(', '): remove any leading or trailing commas and spaces. -/
def stripCommaSpace (s : String) : String :=
  String.mk
    (((s.data.dropWhile (fun c => c == ',' || c == ' ')).reverse.dropWhile
        (fun c => c == ',' || c == ' ')).reverse)

/-- The cell of one record on the Student badge sheet: three leading blank
paragraphs, then name, major, city-state, group-pronouns and session date,
each appended only when the guarding field check of the source passes. -/
def student_cell (rec : Record) : List BadgeLine :=
  let name_text := pyStrip (rec.get "Preferred") ++ " " ++ pyStrip (rec.get "Last")
  let major := pyStrip (rec.get "Major")
  let home_city := pyStrip (rec.get "Home City")
  let home_state := pyStrip (rec.get "Home State/Region")
  let group := pyStrip (rec.get "Group Number")
  let pronouns := pyStrip (rec.get "Pronouns")
  let gp_text := pyJoinFiltered " – " [group, pronouns]
  let session_date := pyStrip (rec.get "FASET Session Date")
  [BadgeLine.blank, BadgeLine.blank, BadgeLine.blank]
  ++ (if pyStrip name_text ≠ "" then [BadgeLine.nameL name_text] else [])
  ++ (if major ≠ "" then [BadgeLine.majorL major] else [])
  ++ (if home_city ≠ "" ∨ home_state ≠ "" then
        [BadgeLine.cityStateL (stripCommaSpace (home_city ++ ", " ++ home_state))]
      else [])
  ++ (if gp_text ≠ "" then [BadgeLine.groupPronounsL gp_text] else [])
  ++ (if session_date ≠ "" then [BadgeLine.sessionL session_date] else [])

/-- The cell of one record on a Guest badge sheet, parameterised by the
guest field names (Guest 1 ... or Guest 2 ...). -/
def guest_cell (pref_key last_key aff_key : String) (rec : Record) : List BadgeLine :=
  let guest_name := pyStrip (rec.get pref_key) ++ " " ++ pyStrip (rec.get last_key)
  let primary_preferred := pyStrip (rec.get "Preferred")
  let primary_last := pyStrip (rec.get "Last")
  let guest_aff := pyStrip (rec.get aff_key)
  let home_city := pyStrip (rec.get "Home City")
  let home_state := pyStrip (rec.get "Home State/Region")
  let session_date := pyStrip (rec.get "FASET Session Date")
  [BadgeLine.blank, BadgeLine.blank, BadgeLine.blank]
  ++ (if pyStrip guest_name ≠ "" then [BadgeLine.nameL guest_name] else [])
  ++ (if primary_preferred ≠ "" ∨ primary_last ≠ "" then
        [BadgeLine.guestOfL ("Guest of: " ++ primary_preferred ++ " " ++ primary_last)]
      else [])
  ++ (if guest_aff ≠ "" then [BadgeLine.affiliationL guest_aff] else [])
  ++ (if home_city ≠ "" ∨ home_state ≠ "" then
        [BadgeLine.cityStateL (stripCommaSpace (home_city ++ ", " ++ home_state))]
      else [])
  ++ (if session_date ≠ "" then [BadgeLine.sessionL session_date] else [])

def guest1_cell : Record → List BadgeLine :=
  guest_cell "Guest 1 Preferred Name" "Guest 1 Last Name" "Guest 1 Affiliations"

def guest2_cell : Record → List BadgeLine :=
  guest_cell "Guest 2 Preferred Name" "Guest 2 Last Name" "Guest 2 Affiliations"

/-- The QR badge document: one cell per record in sorted order, then the
closing total line. -/
structure QRDoc where
  cells : List (List BadgeLine)
  totalLine : String
deriving DecidableEq, Repr

/-- generate_labels after loading: sort, render one cell per record (the
1-based loop index is passed to the download call), append the total. -/
def buildQRDoc (fetch : Nat → Option String) (records : List Record) : QRDoc :=
  let sorted := sortRecords records
  { cells := sorted.enum.map (fun p => qr_cell fetch (p.1 + 1) p.2)
    totalLine := "Total Count: " ++ toString records.length }

/-- name_badges_fixed after loading: sort, render one cell per record. -/
def student_doc (records : List Record) : List (List BadgeLine) :=
  (sortRecords records).map student_cell

/-- The guest filter of guest1_badges and guest2_badges: keep a record when
safe_int of its FASET Total Guest Count (default string 0) meets the
threshold. -/
def guest_filter (threshold : Int) (records : List Record) : List Record :=
  records.filter (fun r => decide (threshold ≤ safe_int (r.getD "FASET Total Guest Count" "0")))

/-- A guest badge run after loading: filter, sort, and return early with no
document when the filtered set is empty. -/
def guest_doc (cellOf : Record → List BadgeLine) (threshold : Int)
    (records : List Record) : Option (List (List BadgeLine)) :=
  let filtered := sortRecords (guest_filter threshold records)
  if filtered.length = 0 then none
  else some (filtered.map cellOf)

def guest1_doc : List Record → Option (List (List BadgeLine)) :=
  guest_doc guest1_cell 1

def guest2_doc : List Record → Option (List (List BadgeLine)) :=
  guest_doc guest2_cell 2

/-- Required CSV columns exactly as listed in the source. -/
def REQUIRED_CSV_COLUMNS : List String :=
  ["Preferred", "Last",
   "FASET Total Guest Count",
   "Guest 1 Preferred Name", "Guest 1 Last Name", "Guest 1 Affiliations",
   "Guest 2 Preferred Name", "Guest 2 Last Name", "Guest 2 Affiliations"]

/-- Abstract input file: its path suffix, and either none when reading the
file fails or the parsed CSV (header columns and the full row list). -/
structure InputFile where
  suffix : String
  content : Option (List String × List Record)

inductive LoadError where
  | notCSV
  | readFailure
  | missingColumns (missing : List String)
deriving DecidableEq, Repr

/-- load_records: reject a non-CSV suffix, then an unreadable file, then a
header missing any required column; each rejection is sys.exit(1), modelled
as the error branch. On success every row is returned. -/
def load_records (f : InputFile) : Except LoadError (List Record) :=
  if pyLower f.suffix ≠ ".csv" then Except.error LoadError.notCSV
  else
    match f.content with
    | none => Except.error LoadError.readFailure
    | some (cols, recs) =>
      let missing := REQUIRED_CSV_COLUMNS.filter (fun c => ¬ cols.contains c)
      if missing ≠ [] then Except.error (LoadError.missingColumns missing)
      else Except.ok recs

/-- generate_labels: load, and only on success build the document. -/
def generate_labels (fetch : Nat → Option String) (f : InputFile) :
    Except LoadError QRDoc :=
  match load_records f with
  | Except.error e => Except.error e
  | Except.ok recs => Except.ok (buildQRDoc fetch recs)

/-- name_badges_fixed: load, and only on success build the document. -/
def name_badges_fixed (f : InputFile) : Except LoadError (List (List BadgeLine)) :=
  match load_records f with
  | Except.error e => Except.error e
  | Except.ok recs => Except.ok (student_doc recs)

/-- guest1_badges: load, then filter; an empty filtered set returns with no
document and no error (ok none). -/
def guest1_badges (f : InputFile) : Except LoadError (Option (List (List BadgeLine))) :=
  match load_records f with
  | Except.error e => Except.error e
  | Except.ok recs => Except.ok (guest1_doc recs)

/-- guest2_badges: load, then filter; an empty filtered set returns with no
document and no error (ok none). -/
def guest2_badges (f : InputFile) : Except LoadError (Option (List (List BadgeLine))) :=
  match load_records f with
  | Except.error e => Except.error e
  | Except.ok recs => Except.ok (guest2_doc recs)

inductive Template where
  | qr
  | student
  | guest1
  | guest2
  | all
deriving DecidableEq, Repr

inductive RunError where
  | load (e : LoadError)
  | indexError
deriving DecidableEq, Repr

inductive Doc where
  | qrDoc (d : QRDoc)
  | nameDoc (cells : List (List BadgeLine))
deriving DecidableEq, Repr

/-- Default output filename sanitisation of the session date: spaces become
underscores and slashes become hyphens (both patterns are single characters,
so str.replace acts character-wise). -/
def sanitize_date (s : String) : String :=
  String.mk (s.data.map (fun c => if c = ' ' then '_' else if c = '/' then '-' else c))

/-- main after the template choice: load the records, derive the default
output name from records[0] (an IndexError on an empty record list, caught
only by the top-level handler, modelled as RunError.indexError), then run
the chosen generators. The produced documents are collected; an error value
models the process exiting with failure status before any document exists. -/
def main (fetch : Nat → Option String) (f : InputFile) (stem : String)
    (template : Template) : Except RunError (List Doc) :=
  match load_records f with
  | Except.error e => Except.error (RunError.load e)
  | Except.ok records =>
    match records with
    | [] => Except.error RunError.indexError
    | r0 :: _ =>
      let raw_date := pyStrip (r0.get "FASET Session Date")
      let _sanitized_date := if raw_date ≠ "" then sanitize_date raw_date else stem
      match template with
      | Template.qr => Except.ok [Doc.qrDoc (buildQRDoc fetch records)]
      | Template.student => Except.ok [Doc.nameDoc (student_doc records)]
      | Template.guest1 => Except.ok ((guest1_doc records).toList.map Doc.nameDoc)
      | Template.guest2 => Except.ok ((guest2_doc records).toList.map Doc.nameDoc)
      | Template.all =>
        Except.ok ([Doc.qrDoc (buildQRDoc fetch records)]
          ++ [Doc.nameDoc (student_doc records)]
          ++ (guest1_doc records).toList.map Doc.nameDoc
          ++ (guest2_doc records).toList.map Doc.nameDoc)

/-- Cell index of the 1-based record index within its page. -/
def cellIndex (per_page idx : Nat) : Nat :=
  (idx - 1) % per_page

/-- Row of the cell: first component of divmod(cellIndex, cols). -/
def cellRow (per_page cols idx : Nat) : Nat :=
  cellIndex per_page idx / cols

/-- Column of the cell: second component of divmod(cellIndex, cols). -/
def cellCol (per_page cols idx : Nat) : Nat :=
  cellIndex per_page idx % cols

/-- The loop adds a new table exactly when (idx - 1) mod per_page is 0. -/
def startsNewPage (per_page idx : Nat) : Bool :=
  cellIndex per_page idx == 0

/-- The rendering loop state: given the table count so far and the next
1-based index, emit (table index, row, column) for each remaining record.
A record is placed in the most recently created table. -/
def assignAux (per_page cols : Nat) : Nat → Nat → Nat → List (Nat × Nat × Nat)
  | _, _, 0 => []
  | tables, idx, n + 1 =>
    let tables2 := if startsNewPage per_page idx then tables + 1 else tables
    (tables2 - 1, cellRow per_page cols idx, cellCol per_page cols idx)
      :: assignAux per_page cols tables2 (idx + 1) n

/-- Cell assignment of the whole run over n records, starting with no table
and index 1, exactly as the rendering loop does. -/
def assignCells (per_page cols n : Nat) : List (Nat × Nat × Nat) :=
  assignAux per_page cols 0 1 n

/-! Helper lemmas about the stable sort. -/

theorem recLe_of_sortKey_eq {a b : Record} (h : sortKey b = sortKey a) : recLe a b := by
  unfold recLe
  rw [h]
  exact keyLe_refl _

theorem filter_key_orderedInsert (k : String × String) (a : Record) :
    ∀ l : List Record,
      (List.orderedInsert recLe a l).filter (fun r => decide (sortKey r = k))
        = if sortKey a = k then a :: l.filter (fun r => decide (sortKey r = k))
          else l.filter (fun r => decide (sortKey r = k)) := by
  intro l
  induction l with
  | nil =>
    simp only [List.orderedInsert, List.filter]
    by_cases h : sortKey a = k <;> simp [h]
  | cons b l ih =>
    by_cases hr : recLe a b
    · rw [List.orderedInsert_of_le _ _ hr]
      simp only [List.filter_cons]
      by_cases ha : sortKey a = k <;> simp [ha]
    · have : List.orderedInsert recLe a (b :: l) = b :: List.orderedInsert recLe a l := by
        simp [List.orderedInsert, hr]
      rw [this]
      simp only [List.filter_cons]
      by_cases ha : sortKey a = k
      · have hb : ¬ (sortKey b = k) := by
          intro hbk
          exact hr (recLe_of_sortKey_eq (hbk.trans ha.symm))
        simp [ih, ha, hb]
      · simp only [ih, ha, decide_eq_true_eq]
        by_cases hb : sortKey b = k <;> simp [ha, hb]

theorem filter_key_sortRecords (k : String × String) :
    ∀ l : List Record,
      (sortRecords l).filter (fun r => decide (sortKey r = k))
        = l.filter (fun r => decide (sortKey r = k)) := by
  intro l
  induction l with
  | nil => rfl
  | cons a l ih =>
    show (List.orderedInsert recLe a (sortRecords l)).filter _ = _
    rw [filter_key_orderedInsert, ih]
    simp only [List.filter_cons, decide_eq_true_eq]

theorem sorted_perm_distinctKeys_eq :
    ∀ (l1 l2 : List Record), l1.Perm l2 →
      List.Sorted recLe l1 → List.Sorted recLe l2 →
      l1.Pairwise (fun a b => sortKey a ≠ sortKey b) → l1 = l2 := by
  intro l1
  induction l1 with
  | nil =>
    intro l2 hp _ _ _
    exact (hp.symm.eq_nil).symm
  | cons a t1 ih =>
    intro l2 hp hs1 hs2 hpw
    cases l2 with
    | nil => exact absurd hp.eq_nil (by simp)
    | cons b t2 =>
      have hb1 : b ∈ a :: t1 := hp.mem_iff.mpr (List.mem_cons_self b t2)
      have hab : a = b := by
        rcases List.mem_cons.mp hb1 with h | hbt1
        · exact h.symm
        · exfalso
          have hke : sortKey a ≠ sortKey b := (List.pairwise_cons.mp hpw).1 b hbt1
          have hrab : recLe a b := List.rel_of_sorted_cons hs1 b hbt1
          have ha2 : a ∈ b :: t2 := hp.mem_iff.mp (List.mem_cons_self a t1)
          rcases List.mem_cons.mp ha2 with h | hat2
          · exact hke (h ▸ rfl)
          · have hrba : recLe b a := List.rel_of_sorted_cons hs2 a hat2
            exact hke (keyLe_antisymm hrab hrba)
      subst hab
      have ht : t1.Perm t2 := hp.cons_inv
      have := ih t2 ht hs1.of_cons hs2.of_cons (List.pairwise_cons.mp hpw).2
      rw [this]

/-! Helper lemma about the pagination loop. -/

theorem assignAux_eq (per_page cols : Nat) :
    ∀ (n k : Nat),
      assignAux per_page cols
          (if k % per_page = 0 then k / per_page else k / per_page + 1) (k + 1) n
        = (List.range' k n).map
            (fun j => (j / per_page, j % per_page / cols, j % per_page % cols)) := by
  intro n
  induction n with
  | zero => intro k; rfl
  | succ n ih =>
    intro k
    have hsn : startsNewPage per_page (k + 1) = (k % per_page == 0) := by
      simp [startsNewPage, cellIndex]
    have htables2 :
        (if startsNewPage per_page (k + 1) then
            (if k % per_page = 0 then k / per_page else k / per_page + 1) + 1
          else (if k % per_page = 0 then k / per_page else k / per_page + 1))
          = k / per_page + 1 := by
      rw [hsn]
      by_cases h : k % per_page = 0 <;> simp [h]
    have hnext :
        k / per_page + 1
          = if (k + 1) % per_page = 0 then (k + 1) / per_page
            else (k + 1) / per_page + 1 := by
      by_cases hd : per_page ∣ (k + 1)
      · have hm : (k + 1) % per_page = 0 := Nat.dvd_iff_mod_eq_zero.mp hd
        rw [if_pos hm, Nat.succ_div_of_dvd hd]
      · have hm : (k + 1) % per_page ≠ 0 := fun h =>
          hd (Nat.dvd_iff_mod_eq_zero.mpr h)
        rw [if_neg hm, Nat.succ_div_of_not_dvd hd]
    show assignAux per_page cols _ (k + 1) (n + 1) = _
    rw [List.range'_succ]
    simp only [assignAux, htables2, List.map_cons]
    have hhead : (k / per_page + 1 - 1, cellRow per_page cols (k + 1),
        cellCol per_page cols (k + 1))
        = (k / per_page, k % per_page / cols, k % per_page % cols) := by
      simp [cellRow, cellCol, cellIndex]
    rw [hhead, hnext, ih (k + 1)]

/-! Line-kind predicates on cell content, used to state which lines a cell
contains. -/

def isNameLine : BadgeLine → Bool
  | BadgeLine.nameL _ => true
  | _ => false

def isShirtLine : BadgeLine → Bool
  | BadgeLine.shirtL _ => true
  | _ => false

def isMajorLine : BadgeLine → Bool
  | BadgeLine.majorL _ => true
  | _ => false

def isCityStateLine : BadgeLine → Bool
  | BadgeLine.cityStateL _ => true
  | _ => false

def isGroupPronounsLine : BadgeLine → Bool
  | BadgeLine.groupPronounsL _ => true
  | _ => false

def isSessionLine : BadgeLine → Bool
  | BadgeLine.sessionL _ => true
  | _ => false

def isGuestOfLine : BadgeLine → Bool
  | BadgeLine.guestOfL _ => true
  | _ => false

def isAffiliationLine : BadgeLine → Bool
  | BadgeLine.affiliationL _ => true
  | _ => false

def isQRImageLine : BadgeLine → Bool
  | BadgeLine.qrImageL _ => true
  | _ => false

def isQRErrorLine : BadgeLine → Bool
  | BadgeLine.qrErrorL _ => true
  | _ => false

/-- Number of cells actually rendered by a guest badge run (zero when the
run returned early with no document). -/
def renderedNameCount (d : Option (List (List BadgeLine))) : Nat :=
  (d.getD []).length

theorem sortRecords_length (l : List Record) : (sortRecords l).length = l.length :=
  (List.perm_insertionSort recLe l).length_eq

/-- C1. Claim: the QR badge name line ends with the suffix dash count where
count is the FASET Total Guest Count field after trimming (blank displays
1). The code instead reads the key FASET Total Count, which is not part of
the CSV schema, so a record whose FASET Total Guest Count is 3 is rendered
with the suffix dash 1: the code contradicts the documented required-column
schema and every other use of the guest-count field. -/
theorem C1_qr_count_reads_wrong_key :
    Record.get [("Preferred", "John"), ("Last", "Doe"), ("FASET Total Guest Count", "3")]
        "FASET Total Guest Count" = "3"
    ∧ qr_name_text [("Preferred", "John"), ("Last", "Doe"), ("FASET Total Guest Count", "3")]
        = "John Doe - 1"
    ∧ qr_name_text [("Preferred", "John"), ("Last", "Doe"), ("FASET Total Count", "3")]
        = "John Doe - 3" := by
  refine ⟨rfl, rfl, rfl⟩

/-- C2 counterexample. The claim quantifies over every badge variant, but
on the QR variant the name line is appended unconditionally: a record whose
name fields are all empty still gets a name line (with text dash 1), so
the claim fails at this input. -/
theorem C2_counterexample :
    pyStrip (Record.get [] "Preferred") = ""
    ∧ pyStrip (Record.get [] "Last") = ""
    ∧ qr_cell (fun _ => none) 1 [] = [BadgeLine.nameL "- 1"] := by
  refine ⟨rfl, rfl, rfl⟩

/-- Conditional inclusion of each content line of a Student badge cell. -/
theorem student_cell_lines (rec : Record) :
    ((student_cell rec).any isNameLine = true
      ↔ pyStrip (pyStrip (rec.get "Preferred") ++ " " ++ pyStrip (rec.get "Last")) ≠ "")
    ∧ ((student_cell rec).any isMajorLine = true ↔ pyStrip (rec.get "Major") ≠ "")
    ∧ ((student_cell rec).any isCityStateLine = true
      ↔ (pyStrip (rec.get "Home City") ≠ "" ∨ pyStrip (rec.get "Home State/Region") ≠ ""))
    ∧ ((student_cell rec).any isGroupPronounsLine = true
      ↔ pyJoinFiltered " – " [pyStrip (rec.get "Group Number"), pyStrip (rec.get "Pronouns")] ≠ "")
    ∧ ((student_cell rec).any isSessionLine = true
      ↔ pyStrip (rec.get "FASET Session Date") ≠ "") := by
  refine ⟨?_, ?_, ?_, ?_, ?_⟩
  all_goals
    simp only [student_cell, List.any_append, List.any_cons, List.any_nil]
    try split_ifs
  all_goals
    simp_all [isNameLine, isMajorLine, isCityStateLine, isGroupPronounsLine,
      isSessionLine]

/-- Conditional inclusion of each content line of a Guest badge cell, for
any choice of the guest field keys (shared by the Guest 1 and Guest 2
variants). -/
theorem guest_cell_lines (pk lk ak : String) (rec : Record) :
    ((guest_cell pk lk ak rec).any isNameLine = true
      ↔ pyStrip (pyStrip (rec.get pk) ++ " " ++ pyStrip (rec.get lk)) ≠ "")
    ∧ ((guest_cell pk lk ak rec).any isGuestOfLine = true
      ↔ (pyStrip (rec.get "Preferred") ≠ "" ∨ pyStrip (rec.get "Last") ≠ ""))
    ∧ ((guest_cell pk lk ak rec).any isAffiliationLine = true
      ↔ pyStrip (rec.get ak) ≠ "")
    ∧ ((guest_cell pk lk ak rec).any isCityStateLine = true
      ↔ (pyStrip (rec.get "Home City") ≠ "" ∨ pyStrip (rec.get "Home State/Region") ≠ ""))
    ∧ ((guest_cell pk lk ak rec).any isSessionLine = true
      ↔ pyStrip (rec.get "FASET Session Date") ≠ "") := by
  refine ⟨?_, ?_, ?_, ?_, ?_⟩
  all_goals
    simp only [guest_cell, List.any_append, List.any_cons, List.any_nil]
    try split_ifs
  all_goals
    simp_all [isNameLine, isGuestOfLine, isAffiliationLine, isCityStateLine,
      isSessionLine]

/-- Line inclusion on a QR badge cell: the name line is unconditional, the
shirt line and the QR section (image on success, error line on failure) are
conditional on their fields. -/
theorem qr_cell_lines (fetch : Nat → Option String) (idx : Nat) (rec : Record) :
    (qr_cell fetch idx rec).any isNameLine = true
    ∧ ((qr_cell fetch idx rec).any isShirtLine = true
      ↔ pyStrip (rec.get "FASET Shirt Size") ≠ "")
    ∧ ((qr_cell fetch idx rec).any (fun ln => isQRImageLine ln || isQRErrorLine ln) = true
      ↔ pyStrip (rec.get "Code") ≠ "") := by
  refine ⟨?_, ?_, ?_⟩
  all_goals
    simp only [qr_cell, List.any_append, List.any_cons, List.any_nil]
    try split_ifs
  all_goals
    try simp_all [isNameLine, isShirtLine, isQRImageLine, isQRErrorLine]
  all_goals
    cases hf : fetch idx <;>
      simp_all [isNameLine, isShirtLine, isQRImageLine, isQRErrorLine]

/-- C2 amended. On the Student and Guest variants every content line is
included exactly when its underlying field (or field pair) is non-empty
after trimming; on the QR variant the shirt line and the QR section are
conditional in the same way, but the name line is always present (its text
falls back to dash count, count defaulting to 1). -/
theorem C2_conditional_lines :
    ∀ (rec : Record) (fetch : Nat → Option String) (idx : Nat),
    ((student_cell rec).any isNameLine = true
      ↔ pyStrip (pyStrip (rec.get "Preferred") ++ " " ++ pyStrip (rec.get "Last")) ≠ "")
    ∧ ((student_cell rec).any isMajorLine = true ↔ pyStrip (rec.get "Major") ≠ "")
    ∧ ((student_cell rec).any isCityStateLine = true
      ↔ (pyStrip (rec.get "Home City") ≠ "" ∨ pyStrip (rec.get "Home State/Region") ≠ ""))
    ∧ ((student_cell rec).any isGroupPronounsLine = true
      ↔ pyJoinFiltered " – " [pyStrip (rec.get "Group Number"), pyStrip (rec.get "Pronouns")] ≠ "")
    ∧ ((student_cell rec).any isSessionLine = true
      ↔ pyStrip (rec.get "FASET Session Date") ≠ "")
    ∧ ((guest1_cell rec).any isNameLine = true
      ↔ pyStrip (pyStrip (rec.get "Guest 1 Preferred Name") ++ " "
          ++ pyStrip (rec.get "Guest 1 Last Name")) ≠ "")
    ∧ ((guest1_cell rec).any isGuestOfLine = true
      ↔ (pyStrip (rec.get "Preferred") ≠ "" ∨ pyStrip (rec.get "Last") ≠ ""))
    ∧ ((guest1_cell rec).any isAffiliationLine = true
      ↔ pyStrip (rec.get "Guest 1 Affiliations") ≠ "")
    ∧ ((guest1_cell rec).any isCityStateLine = true
      ↔ (pyStrip (rec.get "Home City") ≠ "" ∨ pyStrip (rec.get "Home State/Region") ≠ ""))
    ∧ ((guest1_cell rec).any isSessionLine = true
      ↔ pyStrip (rec.get "FASET Session Date") ≠ "")
    ∧ ((guest2_cell rec).any isNameLine = true
      ↔ pyStrip (pyStrip (rec.get "Guest 2 Preferred Name") ++ " "
          ++ pyStrip (rec.get "Guest 2 Last Name")) ≠ "")
    ∧ ((guest2_cell rec).any isGuestOfLine = true
      ↔ (pyStrip (rec.get "Preferred") ≠ "" ∨ pyStrip (rec.get "Last") ≠ ""))
    ∧ ((guest2_cell rec).any isAffiliationLine = true
      ↔ pyStrip (rec.get "Guest 2 Affiliations") ≠ "")
    ∧ ((guest2_cell rec).any isCityStateLine = true
      ↔ (pyStrip (rec.get "Home City") ≠ "" ∨ pyStrip (rec.get "Home State/Region") ≠ ""))
    ∧ ((guest2_cell rec).any isSessionLine = true
      ↔ pyStrip (rec.get "FASET Session Date") ≠ "")
    ∧ (qr_cell fetch idx rec).any isNameLine = true
    ∧ ((qr_cell fetch idx rec).any isShirtLine = true
      ↔ pyStrip (rec.get "FASET Shirt Size") ≠ "")
    ∧ ((qr_cell fetch idx rec).any (fun ln => isQRImageLine ln || isQRErrorLine ln) = true
      ↔ pyStrip (rec.get "Code") ≠ "") := by
  intro rec fetch idx
  obtain ⟨s1, s2, s3, s4, s5⟩ := student_cell_lines rec
  obtain ⟨g1, g2, g3, g4, g5⟩ :=
    guest_cell_lines "Guest 1 Preferred Name" "Guest 1 Last Name"
      "Guest 1 Affiliations" rec
  obtain ⟨h1, h2, h3, h4, h5⟩ :=
    guest_cell_lines "Guest 2 Preferred Name" "Guest 2 Last Name"
      "Guest 2 Affiliations" rec
  obtain ⟨q1, q2, q3⟩ := qr_cell_lines fetch idx rec
  exact ⟨s1, s2, s3, s4, s5, g1, g2, g3, g4, g5, h1, h2, h3, h4, h5, q1, q2, q3⟩

/-- C3. For every loaded record list the number of rendered records equals
the input count for the QR and Student variants, and for the Guest variants
it equals the number of rows whose guest-count field passes the safe_int
threshold (1 or 2); safe_int maps empty and non-numeric strings to 0. -/
theorem C3_output_counts :
    ∀ (fetch : Nat → Option String) (l : List Record),
    (buildQRDoc fetch l).cells.length = l.length
    ∧ (student_doc l).length = l.length
    ∧ renderedNameCount (guest1_doc l) = (guest_filter 1 l).length
    ∧ renderedNameCount (guest2_doc l) = (guest_filter 2 l).length
    ∧ safe_int "" = 0 ∧ safe_int "abc" = 0 ∧ safe_int "3" = 3 := by
  intro fetch l
  have hg : ∀ (cellOf : Record → List BadgeLine) (t : Int),
      renderedNameCount (guest_doc cellOf t l) = (guest_filter t l).length := by
    intro cellOf t
    unfold guest_doc renderedNameCount
    by_cases h : (sortRecords (guest_filter t l)).length = 0
    · rw [if_pos h]
      rw [sortRecords_length] at h
      simp [h.symm]
    · rw [if_neg h]
      simp [sortRecords_length]
  refine ⟨?_, ?_, hg guest1_cell 1, hg guest2_cell 2, rfl, rfl, rfl⟩
  · simp [buildQRDoc, sortRecords_length]
  · simp [student_doc, sortRecords_length]

/-- C4. Sorting orders the records ascending by the key (lower-cased last
name, lower-cased preferred name), permutes the input, and is stable:
records sharing a key keep their input order (the filter by any fixed key
is unchanged). Consequently two row orders of the same record multiset with
pairwise distinct keys sort to the identical list. -/
theorem C4_sort_stable :
    ∀ (l l1 l2 : List Record),
    List.Sorted recLe (sortRecords l)
    ∧ (sortRecords l).Perm l
    ∧ (∀ k, (sortRecords l).filter (fun r => decide (sortKey r = k))
        = l.filter (fun r => decide (sortKey r = k)))
    ∧ (l1.Perm l2 → l1.Pairwise (fun a b => sortKey a ≠ sortKey b) →
        sortRecords l1 = sortRecords l2) := by
  intro l l1 l2
  refine ⟨List.sorted_insertionSort recLe l, List.perm_insertionSort recLe l,
    fun k => filter_key_sortRecords k l, fun hp hpw => ?_⟩
  have hperm : (sortRecords l1).Perm (sortRecords l2) :=
    ((List.perm_insertionSort recLe l1).trans hp).trans
      (List.perm_insertionSort recLe l2).symm
  have hpw1 : (sortRecords l1).Pairwise (fun a b => sortKey a ≠ sortKey b) :=
    (List.Perm.pairwise_iff (fun {_ _} h e => h e.symm)
      (List.perm_insertionSort recLe l1)).mpr hpw
  exact sorted_perm_distinctKeys_eq (sortRecords l1) (sortRecords l2) hperm
    (List.sorted_insertionSort recLe l1) (List.sorted_insertionSort recLe l2) hpw1

/-- C4 witness: two concrete orders of the same two records, with distinct
keys, sort to the identical list. -/
theorem C4_sort_stable_witness :
    ([[("Last", "b")], [("Last", "a")]] : List Record).Pairwise
        (fun a b => sortKey a ≠ sortKey b)
    ∧ sortRecords [[("Last", "b")], [("Last", "a")]]
        = sortRecords [[("Last", "a")], [("Last", "b")]] :=
  ⟨by decide,
    (C4_sort_stable [] [[("Last", "b")], [("Last", "a")]]
        [[("Last", "a")], [("Last", "b")]]).2.2.2
      (List.Perm.swap [("Last", "a")] [("Last", "b")] [])
      (by decide)⟩

/-- C5. The rendering loop realises the pagination arithmetic of the spec:
over any run, the record with 1-based index idx lands in table number
(idx - 1) / per_page at row and column divmod((idx - 1) mod per_page,
columns), a new table starting exactly when the cell index is 0; with
per_page 8 and columns 2, record 9 starts a new page at row 0 column 0 and
record 8 occupies row 3 column 1. -/
theorem C5_pagination :
    ∀ (per_page cols n : Nat),
    assignCells per_page cols n
        = (List.range n).map
            (fun k => (k / per_page, k % per_page / cols, k % per_page % cols))
    ∧ (∀ idx, cellIndex per_page idx = (idx - 1) % per_page)
    ∧ (∀ idx, cellRow per_page cols idx = cellIndex per_page idx / cols
        ∧ cellCol per_page cols idx = cellIndex per_page idx % cols)
    ∧ (∀ idx, startsNewPage per_page idx = true ↔ cellIndex per_page idx = 0)
    ∧ (startsNewPage 8 9 = true ∧ cellRow 8 2 9 = 0 ∧ cellCol 8 2 9 = 0)
    ∧ (startsNewPage 8 8 = false ∧ cellRow 8 2 8 = 3 ∧ cellCol 8 2 8 = 1)
    ∧ (assignCells 8 2 9).getLast? = some (1, 0, 0)
    ∧ (assignCells 8 2 9).get? 7 = some (0, 3, 1) := by
  intro per_page cols n
  refine ⟨?_, fun _ => rfl, fun _ => ⟨rfl, rfl⟩, ?_, by decide, by decide, by decide, by decide⟩
  · have h0 : (if 0 % per_page = 0 then 0 / per_page else 0 / per_page + 1) = 0 := by
      simp
    have := assignAux_eq per_page cols n 0
    rw [h0] at this
    rw [assignCells, this, List.range_eq_range']
  · intro idx
    simp [startsNewPage]

/-- C6. Loading fails the whole run when the suffix is not csv, the file is
unreadable, or a required column is missing from the header; the failure
precedes every document build (all four generators return the same error
and produce nothing), and a successful load returns exactly the full row
list of the file. -/
theorem C6_load_failures :
    ∀ (fetch : Nat → Option String) (f : InputFile),
    ((pyLower f.suffix ≠ ".csv" ∨ f.content = none ∨
        (∃ cols recs, f.content = some (cols, recs)
          ∧ ∃ c, c ∈ REQUIRED_CSV_COLUMNS ∧ cols.contains c = false)) →
      ∃ e, load_records f = Except.error e
        ∧ generate_labels fetch f = Except.error e
        ∧ name_badges_fixed f = Except.error e
        ∧ guest1_badges f = Except.error e
        ∧ guest2_badges f = Except.error e)
    ∧ (∀ recs, load_records f = Except.ok recs →
        ∃ cols, f.content = some (cols, recs)) := by
  intro fetch f
  have hprop : ∀ e, load_records f = Except.error e →
      generate_labels fetch f = Except.error e
      ∧ name_badges_fixed f = Except.error e
      ∧ guest1_badges f = Except.error e
      ∧ guest2_badges f = Except.error e := by
    intro e h
    unfold generate_labels name_badges_fixed guest1_badges guest2_badges
    rw [h]
    exact ⟨rfl, rfl, rfl, rfl⟩
  constructor
  · intro h
    by_cases hs : pyLower f.suffix ≠ ".csv"
    · have hl : load_records f = Except.error LoadError.notCSV := by
        unfold load_records
        rw [if_pos hs]
      exact ⟨LoadError.notCSV, hl, hprop _ hl⟩
    · rcases h with h | h | h
      · exact absurd h hs
      · have hl : load_records f = Except.error LoadError.readFailure := by
          unfold load_records
          rw [if_neg hs, h]
        exact ⟨LoadError.readFailure, hl, hprop _ hl⟩
      · rcases h with ⟨cols, recs, hfc, c, hcm, hcc⟩
        have hmem : c ∈ REQUIRED_CSV_COLUMNS.filter (fun c => ¬ cols.contains c) := by
          rw [List.mem_filter]
          exact ⟨hcm, by simpa using hcc⟩
        have hne : REQUIRED_CSV_COLUMNS.filter (fun c => ¬ cols.contains c) ≠ [] :=
          List.ne_nil_of_mem hmem
        have hl : load_records f
            = Except.error (LoadError.missingColumns
                (REQUIRED_CSV_COLUMNS.filter (fun c => ¬ cols.contains c))) := by
          unfold load_records
          rw [if_neg hs, hfc]
          simp only [if_pos hne]
        exact ⟨_, hl, hprop _ hl⟩
  · intro recs h
    unfold load_records at h
    by_cases hs : pyLower f.suffix ≠ ".csv"
    · rw [if_pos hs] at h
      exact absurd h (by simp)
    · rw [if_neg hs] at h
      rcases hfc : f.content with _ | ⟨cols, recs2⟩
      · rw [hfc] at h
        exact absurd h (by simp)
      · rw [hfc] at h
        by_cases hm : REQUIRED_CSV_COLUMNS.filter (fun c => ¬ cols.contains c) ≠ []
        · simp only [if_pos hm] at h
          exact absurd h (by simp)
        · simp only [if_neg hm] at h
          refine ⟨cols, ?_⟩
          injection h with h2
          rw [h2]

/-- C6 witness: a file with a non-CSV suffix fails loading, and every
generator propagates the same error with no document. -/
theorem C6_load_failures_witness :
    ∃ e, load_records ⟨".txt", some (REQUIRED_CSV_COLUMNS, [])⟩ = Except.error e
      ∧ generate_labels (fun _ => none) ⟨".txt", some (REQUIRED_CSV_COLUMNS, [])⟩
          = Except.error e
      ∧ name_badges_fixed ⟨".txt", some (REQUIRED_CSV_COLUMNS, [])⟩ = Except.error e
      ∧ guest1_badges ⟨".txt", some (REQUIRED_CSV_COLUMNS, [])⟩ = Except.error e
      ∧ guest2_badges ⟨".txt", some (REQUIRED_CSV_COLUMNS, [])⟩ = Except.error e :=
  (C6_load_failures (fun _ => none) ⟨".txt", some (REQUIRED_CSV_COLUMNS, [])⟩).1
    (Or.inl (by decide))

/-- C7. When a record has a non-empty QR URL and the fetch fails for any
reason, the cell carries the literal line QR download error and no image,
and the run still renders every record (one cell per record, whatever the
fetch oracle returns). -/
theorem C7_qr_fetch_failure :
    ∀ (fetch : Nat → Option String) (idx : Nat) (rec : Record) (l : List Record),
    (pyStrip (rec.get "Code") ≠ "" → fetch idx = none →
      BadgeLine.qrErrorL "QR download error" ∈ qr_cell fetch idx rec
      ∧ (∀ p, BadgeLine.qrImageL p ∉ qr_cell fetch idx rec))
    ∧ (buildQRDoc fetch l).cells.length = l.length := by
  intro fetch idx rec l
  constructor
  · intro hurl hf
    unfold qr_cell
    rw [hf]
    simp only [if_pos hurl]
    constructor
    · simp
    · intro p
      split_ifs <;> simp
  · simp [buildQRDoc, sortRecords_length]

/-- C7 witness at a concrete record and a failing fetch oracle. -/
theorem C7_qr_fetch_failure_witness :
    BadgeLine.qrErrorL "QR download error"
        ∈ qr_cell (fun _ => none) 1 [("Code", "http://x")]
    ∧ (∀ p, BadgeLine.qrImageL p ∉ qr_cell (fun _ => none) 1 [("Code", "http://x")]) :=
  (C7_qr_fetch_failure (fun _ => none) 1 [("Code", "http://x")] []).1 (by decide) rfl

/-- C8. When the guest filter leaves no records, the guest badge run
returns at once with no output document and no error. -/
theorem C8_empty_filter_no_output :
    ∀ (f : InputFile) (recs : List Record),
    load_records f = Except.ok recs →
    (guest_filter 1 recs = [] → guest1_badges f = Except.ok none)
    ∧ (guest_filter 2 recs = [] → guest2_badges f = Except.ok none) := by
  intro f recs h
  constructor
  · intro hf
    simp [guest1_badges, h, guest1_doc, guest_doc, hf, sortRecords, List.insertionSort]
  · intro hf
    simp [guest2_badges, h, guest2_doc, guest_doc, hf, sortRecords, List.insertionSort]

/-- C8 witness: a CSV whose single row has guest count 0 yields no guest 1
document and no error. -/
theorem C8_empty_filter_no_output_witness :
    guest1_badges ⟨".csv", some (REQUIRED_CSV_COLUMNS,
        [[("FASET Total Guest Count", "0")]])⟩ = Except.ok none :=
  (C8_empty_filter_no_output
      ⟨".csv", some (REQUIRED_CSV_COLUMNS, [[("FASET Total Guest Count", "0")]])⟩
      [[("FASET Total Guest Count", "0")]] rfl).1 (by decide)

/-- C9. A record whose Code field is empty after trimming gets neither a QR
image nor the QR download error line; its cell does not depend on the fetch
oracle at all, so it is indistinguishable from a record with no QR section. -/
theorem C9_empty_code_no_qr_section :
    ∀ (fetch : Nat → Option String) (idx : Nat) (rec : Record),
    pyStrip (rec.get "Code") = "" →
    (∀ p, BadgeLine.qrImageL p ∉ qr_cell fetch idx rec)
    ∧ (∀ s, BadgeLine.qrErrorL s ∉ qr_cell fetch idx rec)
    ∧ qr_cell fetch idx rec = qr_cell (fun _ => none) idx rec := by
  intro fetch idx rec h
  unfold qr_cell
  simp only [h]
  refine ⟨?_, ?_, rfl⟩
  · intro p
    split_ifs <;> simp_all
  · intro s
    split_ifs <;> simp_all

/-- C9 witness at a concrete record with an empty Code field and an oracle
that would have returned an image. -/
theorem C9_empty_code_no_qr_section_witness :
    (∀ p, BadgeLine.qrImageL p ∉ qr_cell (fun _ => some "img.png") 1 [("Code", "  ")])
    ∧ (∀ s, BadgeLine.qrErrorL s ∉ qr_cell (fun _ => some "img.png") 1 [("Code", "  ")]) :=
  ⟨(C9_empty_code_no_qr_section (fun _ => some "img.png") 1 [("Code", "  ")] (by decide)).1,
    (C9_empty_code_no_qr_section (fun _ => some "img.png") 1 [("Code", "  ")] (by decide)).2.1⟩

/-- C10. A CSV that loads successfully with zero data rows makes the run
fail before any badge document is generated: deriving the default output
name reads records[0] unconditionally, the IndexError is only caught by the
top-level handler, and the process exits with failure status. -/
theorem C10_empty_csv_crashes :
    ∀ (fetch : Nat → Option String) (f : InputFile) (stem : String) (tpl : Template),
    load_records f = Except.ok [] →
    main fetch f stem tpl = Except.error RunError.indexError := by
  intro fetch f stem tpl h
  unfold main
  rw [h]

/-- C10 witness: a concrete CSV with a full header and no rows crashes the
run for the QR template. -/
theorem C10_empty_csv_crashes_witness :
    main (fun _ => none) ⟨".csv", some (REQUIRED_CSV_COLUMNS, [])⟩ "input" Template.qr
      = Except.error RunError.indexError :=
  C10_empty_csv_crashes (fun _ => none) ⟨".csv", some (REQUIRED_CSV_COLUMNS, [])⟩
    "input" Template.qr rfl

end Badges
